import Mathlib

/-!
Verification of the input-event simulation surface of the `exul` X11
automation library (`exul/utilities.py`).

The library's observable behaviour is a sequence of effects: X events sent
to a window (`window.send_event(...)`), display flushes, and fixed sleeps.
We embed each Python function as a pure Lean function that returns the
trace of effects it performs (a `List Action`), together with its return
value where the Python function returns one.  Calls into the Xlib binding
that consult the display (keysym lookup, keycode mapping, atom interning,
property reads) are abstracted as an explicit environment record, and
Python exceptions are modelled with `Except`.
-/

namespace Exul

/-- Event type codes from `Xlib.X` used by `utilities.py`. -/
def X_KeyPress : Nat := 2

def X_KeyRelease : Nat := 3

def X_ButtonPress : Nat := 4

def X_ButtonRelease : Nat := 5

def X_MotionNotify : Nat := 6

def X_NotifyNormal : Nat := 0

def X_CurrentTime : Nat := 0

def X_NONE : Nat := 0

/-- `MOUSE_LEFT = 1` in `utilities.py`. -/
def MOUSE_LEFT : Nat := 1

/-- `MOUSE_RIGHT = 2` in `utilities.py`. -/
def MOUSE_RIGHT : Nat := 2

/-- `MOUSE_SCROLL_UP = 4` in `utilities.py`. -/
def MOUSE_SCROLL_UP : Nat := 4

/-- `MOUSE_SCROLL_DOWN = 5` in `utilities.py`. -/
def MOUSE_SCROLL_DOWN : Nat := 5

/-- The Xlib protocol event class passed as `event_class` to `send_event`
(e.g. `Xlib.protocol.event.ButtonPress`). -/
inductive EventClass where
  | keyPress
  | keyRelease
  | buttonPress
  | buttonRelease
  | motionNotify
deriving DecidableEq, Repr

/-- The event record built inside `send_event`, field for field: `type`,
`detail`, `time`, `root`, `window`, `child`, `root_x`, `root_y`,
`event_x`, `event_y`, `state`, `same_screen`. -/
structure EventRecord where
  type : Nat
  detail : Nat
  time : Nat
  root : Nat
  window : Nat
  child : Nat
  root_x : Int
  root_y : Int
  event_x : Int
  event_y : Int
  state : Nat
  same_screen : Nat
deriving DecidableEq, Repr

/-- The two fixed sleep constants of `utilities.py` (both 0.024 s):
`KEY_EVENT_INTERVAL` and `MOUSE_HELD_DURATION`. -/
inductive SleepKind where
  | keyEventInterval
  | mouseHeldDuration
deriving DecidableEq, Repr

/-- One observable effect of the library: sending an event to a window,
flushing the display of a window, or sleeping for a fixed duration. -/
inductive Action where
  | sendEvent (target : Nat) (cls : EventClass) (ev : EventRecord)
  | flush (target : Nat)
  | sleep (k : SleepKind)
deriving DecidableEq, Repr

/-- The display-dependent key lookups used by `get_key_code`:
`Xlib.XK.string_to_keysym` (0 means `NoSymbol`) and
`DISPLAY.keysym_to_keycode`. -/
structure XEnv where
  string_to_keysym : String → Nat
  keysym_to_keycode : Nat → Nat

/-- `send_event(window, event_class, event_type, keycode, x, y, modifiers)`:
builds one event record (time `X.CurrentTime`, root and child `X.NONE`,
root coordinates zeroed, event coordinates `x, y`, state `modifiers`,
`same_screen = 1`), sends it to `window`, and flushes the display. -/
def send_event (window : Nat) (event_class : EventClass) (event_type : Nat)
    (keycode : Nat) (x : Int) (y : Int) (modifiers : Nat) : List Action :=
  [Action.sendEvent window event_class
     ⟨event_type, keycode, X_CurrentTime, X_NONE, window, X_NONE, 0, 0, x, y, modifiers, 1⟩,
   Action.flush window]

/-- `mouse_down(window, x, y, code)`: a `ButtonPress` event. -/
def mouse_down (window : Nat) (x y : Int) (code : Nat) : List Action :=
  send_event window EventClass.buttonPress X_ButtonPress code x y 0

/-- `mouse_move(window, x, y)`: a `MotionNotify` event with detail
`X.NotifyNormal`. -/
def mouse_move (window : Nat) (x y : Int) : List Action :=
  send_event window EventClass.motionNotify X_MotionNotify X_NotifyNormal x y 0

/-- `mouse_up(window, x, y, code)`: a `ButtonRelease` event. -/
def mouse_up (window : Nat) (x y : Int) (code : Nat) : List Action :=
  send_event window EventClass.buttonRelease X_ButtonRelease code x y 0

/-- `click(window, x, y, code)`: move, press, sleep `MOUSE_HELD_DURATION`,
release; returns `code`. -/
def click (window : Nat) (x y : Int) (code : Nat) : List Action × Nat :=
  (mouse_move window x y ++ mouse_down window x y code ++
     [Action.sleep SleepKind.mouseHeldDuration] ++ mouse_up window x y code, code)

/-- `scroll_down(window, x, y, repeat)`: one `mouse_move`, then `repeat`
iterations of `click(window, x, y, MOUSE_SCROLL_DOWN)`; returns `repeat`. -/
def scroll_down (window : Nat) (x y : Int) (rep : Nat) : List Action × Nat :=
  (mouse_move window x y ++
     (List.replicate rep (click window x y MOUSE_SCROLL_DOWN).1).flatten, rep)

/-- `scroll_up(window, x, y, repeat)`: one `mouse_move`, then `repeat`
iterations of `click(window, x, y, MOUSE_SCROLL_UP)`; returns `repeat`. -/
def scroll_up (window : Nat) (x y : Int) (rep : Nat) : List Action × Nat :=
  (mouse_move window x y ++
     (List.replicate rep (click window x y MOUSE_SCROLL_UP).1).flatten, rep)

/-- The convenience renaming performed at the top of `get_key_code`:
`Ctrl` becomes `Control`, `Enter` becomes `Return`. -/
def pyConvert (character : String) : String :=
  if character = "Ctrl" then "Control"
  else if character = "Enter" then "Return"
  else character

/-- `get_key_code(character)`: applies the convenience renaming, looks the
name up with `string_to_keysym`; if the keysym is 0 it raises
`Exception('NoSymbol found for character: ...')` with the renamed name,
otherwise it returns `keysym_to_keycode` of the keysym. -/
def get_key_code (env : XEnv) (character : String) : Except String Nat :=
  if env.string_to_keysym (pyConvert character) = 0 then
    Except.error ("NoSymbol found for character: " ++ pyConvert character)
  else
    Except.ok (env.keysym_to_keycode (env.string_to_keysym (pyConvert character)))

/-- `key_press(window, keycode, modifiers)`: a `KeyPress` event at
coordinates (0, 0). -/
def key_press (window : Nat) (keycode : Nat) (modifiers : Nat) : List Action :=
  send_event window EventClass.keyPress X_KeyPress keycode 0 0 modifiers

/-- `key_release(window, keycode, modifiers)`: a `KeyRelease` event at
coordinates (0, 0). -/
def key_release (window : Nat) (keycode : Nat) (modifiers : Nat) : List Action :=
  send_event window EventClass.keyRelease X_KeyRelease keycode 0 0 modifiers

/-- Python `str.split(sep)` on a character list: splits at every
occurrence of `sep`; the empty list yields `[[]]`. -/
def splitChars (sep : Char) : List Char → List (List Char)
  | [] => [[]]
  | c :: cs =>
    if c = sep then [] :: splitChars sep cs
    else
      match splitChars sep cs with
      | [] => [[c]]
      | h :: t => (c :: h) :: t

/-- Python `key.split(sep)` for a one-character separator. -/
def pySplit (s : String) (sep : Char) : List String :=
  (splitChars sep s.data).map String.mk

/-- Python `str.capitalize()`: first character uppercased, the rest
lowercased. -/
def pyCapitalize (s : String) : String :=
  match s.data with
  | [] => ""
  | c :: cs => String.mk (c.toUpper :: cs.map Char.toLower)

/-- The membership test `part in ('alt', 'control', 'shift')` from
`_parse_key_string`. -/
def isModToken (part : String) : Bool :=
  part == "alt" || part == "control" || part == "shift"

/-- The `for part in key.split('+')` loop body of `_parse_key_string`:
modifier tokens are resolved as `<Capitalized>_L` and appended to `mods`,
all other tokens are resolved directly and appended to `primaries`. -/
def parseLoop (env : XEnv) :
    List String → List Nat → List Nat → Except String (List Nat × List Nat)
  | [], primaries, mods => Except.ok (primaries, mods)
  | part :: rest, primaries, mods =>
    if isModToken part then
      (get_key_code env (pyCapitalize part ++ "_L")).bind fun c =>
        parseLoop env rest primaries (mods ++ [c])
    else
      (get_key_code env part).bind fun c =>
        parseLoop env rest (primaries ++ [c]) mods

/-- `_parse_key_string(key)`: a spec without `+`, or the literal `"+"`, is
a single primary key with no modifiers; otherwise the spec is split on
`+` and processed token by token. Returns `(primaries, mods)`. -/
def _parse_key_string (env : XEnv) (key : String) :
    Except String (List Nat × List Nat) :=
  if !(key.data.contains '+') || key == "+" then
    (get_key_code env key).map fun c => ([c], [])
  else
    parseLoop env (pySplit key '+') [] []

/-- `send_key(window, key, repeat, modifiers)`: parses the spec, presses
the modifier keycodes in order, performs `repeat` rounds of
press/release over the primary keycodes, then releases the modifiers in
reverse order; each event is followed by a `KEY_EVENT_INTERVAL` sleep. -/
def send_key (env : XEnv) (window : Nat) (key : String) (rep : Nat)
    (modifiers : Nat) : Except String (List Action) :=
  (_parse_key_string env key).map fun pm =>
    (pm.2.flatMap fun keycode =>
       key_press window keycode modifiers ++ [Action.sleep SleepKind.keyEventInterval]) ++
    (List.replicate rep (pm.1.flatMap fun keycode =>
       key_press window keycode modifiers ++ [Action.sleep SleepKind.keyEventInterval] ++
       key_release window keycode modifiers ++
       [Action.sleep SleepKind.keyEventInterval])).flatten ++
    (pm.2.reverse.flatMap fun keycode =>
       key_release window keycode modifiers ++ [Action.sleep SleepKind.keyEventInterval])

/-- The `for key in keys: send_key(window, key)` loop of `send_keys`,
accumulating the trace; the first raised exception propagates. -/
def send_keys_loop (env : XEnv) (window : Nat) :
    List String → Except String (List Action)
  | [] => Except.ok []
  | key :: rest =>
    (send_key env window key 1 0).bind fun t =>
      (send_keys_loop env window rest).map fun t2 => t ++ t2

/-- `send_keys(window, keys)`: sends each spec with `send_key` at its
default `repeat=1, modifiers=0` and returns `len(keys)`. -/
def send_keys (env : XEnv) (window : Nat) (keys : List String) :
    Except String (List Action × Nat) :=
  (send_keys_loop env window keys).map fun t => (t, keys.length)

/-- The `KeyPressed` context-manager object: `__init__` stores the window
and the keycode resolved by `get_key_code`. -/
structure KeyPressed where
  window : Nat
  code : Nat
deriving DecidableEq, Repr

/-- `KeyPressed.__init__(window, key)`: resolves `key` with
`get_key_code` at construction time; any resolution failure is raised
here, before the scope is entered. -/
def KeyPressed.init (env : XEnv) (window : Nat) (key : String) :
    Except String KeyPressed :=
  (get_key_code env key).map fun c => ⟨window, c⟩

/-- `KeyPressed.__enter__`: presses the stored keycode. -/
def KeyPressed.enter (self : KeyPressed) : List Action :=
  key_press self.window self.code 0

/-- `KeyPressed.__exit__`: releases the stored keycode. -/
def KeyPressed.exit (self : KeyPressed) : List Action :=
  key_release self.window self.code 0

/-- Outcome of the block wrapped by a `with` statement: it either
completes normally or raises, in both cases after producing a trace of
its own effects. -/
inductive BodyResult where
  | normal (trace : List Action)
  | raised (trace : List Action)
deriving DecidableEq, Repr

/-- The effects of the wrapped block itself. -/
def bodyTrace : BodyResult → List Action
  | BodyResult.normal t => t
  | BodyResult.raised t => t

/-- Python `with` semantics for a constructed `KeyPressed`: `__enter__`
runs first, then the body, then `__exit__` on every exit path; since
`__exit__` returns `None`, an exception from the body still propagates
(the boolean result is `true` exactly when the body completed normally). -/
def withKeyPressed (kp : KeyPressed) (body : BodyResult) : List Action × Bool :=
  match body with
  | BodyResult.normal t => (kp.enter ++ t ++ kp.exit, true)
  | BodyResult.raised t => (kp.enter ++ t ++ kp.exit, false)

/-- The display-dependent lookups used by `get_window_pid`: interning an
atom with `only_if_exists=1` (`none` when the atom does not exist, in
which case the reply carries atom 0), and reading a window property
(`none` when the property is absent or invalid). -/
structure WindowEnv where
  intern_atom : String → Option Nat
  get_property : Nat → Option (List Int)

/-- The unchecked Python failures `get_window_pid` can hit: `pid` is
`None` (attribute access fails) or `pid.value` is empty (index 0 fails). -/
inductive PyError where
  | attributeError
  | indexError
deriving DecidableEq, Repr

/-- `get_window_pid(window)`: interns `_NET_WM_PID` with
`only_if_exists=1` (atom 0 when missing), reads the property, and returns
`int(pid.value.tolist()[0])`; a missing property raises unchecked. -/
def get_window_pid (env : WindowEnv) : Except PyError Int :=
  match env.get_property ((env.intern_atom "_NET_WM_PID").getD 0) with
  | none => Except.error PyError.attributeError
  | some [] => Except.error PyError.indexError
  | some (v :: _) => Except.ok v

/-!
Specification-side definitions.  These describe, independently of the
`send_event` pipeline, the concrete events the specification talks
about; the claim theorems compare the traces produced by the embedded
code against them.
-/

/-- The events actually sent in a trace, with their protocol class, in
order (flushes and sleeps are not events). -/
def sentEvents : List Action → List (EventClass × EventRecord)
  | [] => []
  | Action.sendEvent _ cls ev :: rest => (cls, ev) :: sentEvents rest
  | Action.flush _ :: rest => sentEvents rest
  | Action.sleep _ :: rest => sentEvents rest

/-- A pointer-move event to window-relative (x, y): `MotionNotify`
(type 6) with detail `NotifyNormal`, zero root coordinates, empty
modifier state, same-screen set. -/
def expectMotion (window : Nat) (x y : Int) : EventClass × EventRecord :=
  (EventClass.motionNotify, ⟨6, 0, 0, 0, window, 0, 0, 0, x, y, 0, 1⟩)

/-- A button-press event (type 4) with the given button code at (x, y). -/
def expectButtonPress (window : Nat) (x y : Int) (code : Nat) :
    EventClass × EventRecord :=
  (EventClass.buttonPress, ⟨4, code, 0, 0, window, 0, 0, 0, x, y, 0, 1⟩)

/-- A button-release event (type 5) with the given button code at (x, y). -/
def expectButtonRelease (window : Nat) (x y : Int) (code : Nat) :
    EventClass × EventRecord :=
  (EventClass.buttonRelease, ⟨5, code, 0, 0, window, 0, 0, 0, x, y, 0, 1⟩)

/-- A key-press event (type 2) for the given keycode and modifier mask. -/
def expectKeyPress (window : Nat) (code : Nat) (modifiers : Nat) :
    EventClass × EventRecord :=
  (EventClass.keyPress, ⟨2, code, 0, 0, window, 0, 0, 0, 0, 0, modifiers, 1⟩)

/-- A key-release event (type 3) for the given keycode and modifier mask. -/
def expectKeyRelease (window : Nat) (code : Nat) (modifiers : Nat) :
    EventClass × EventRecord :=
  (EventClass.keyRelease, ⟨3, code, 0, 0, window, 0, 0, 0, 0, 0, modifiers, 1⟩)

/-- The keycode a resolvable name maps to: `keysym_to_keycode` of its
keysym (after the convenience renaming). -/
def keycodeOf (env : XEnv) (c : String) : Nat :=
  env.keysym_to_keycode (env.string_to_keysym (pyConvert c))

/-- Number of key-release events for a given keycode sent to a given
window in a trace. -/
def countKeyReleases (window code : Nat) (tr : List Action) : Nat :=
  (tr.filter fun a =>
    match a with
    | Action.sendEvent target EventClass.keyRelease ev =>
        target == window && ev.detail == code
    | _ => false).length

/-- Whether the first list occurs at the head of the second. -/
def listPrefixTest : List Char → List Char → Bool
  | [], _ => true
  | _ :: _, [] => false
  | a :: as, b :: bs => a == b && listPrefixTest as bs

/-- Whether the first list occurs contiguously anywhere in the second. -/
def listInfixTest (needle : List Char) : List Char → Bool
  | [] => listPrefixTest needle []
  | b :: bs => listPrefixTest needle (b :: bs) || listInfixTest needle bs

/-- Substring test: `needle` occurs contiguously in `haystack`. -/
def strContains (haystack needle : String) : Bool :=
  listInfixTest needle.data haystack.data

/-- Effectful map over a list in `Except`, specification-side
counterpart of iterating `send_key` over a list of key specs. -/
def mapExcept {α β ε : Type} (f : α → Except ε β) : List α → Except ε (List β)
  | [] => Except.ok []
  | a :: as => (f a).bind fun b => (mapExcept f as).map fun bs => b :: bs

/-- A display mapping where no name resolves to a keysym. -/
def envNone : XEnv :=
  ⟨fun _ => 0, fun n => n⟩

/-- A display mapping resolving exactly `Shift_L` (keysym 50) and `a`
(keysym 38), with the identity keysym-to-keycode mapping. -/
def envTest : XEnv :=
  ⟨fun s => if s = "Shift_L" then 50 else if s = "a" then 38 else 0, fun n => n⟩

/-- A window whose `_NET_WM_PID` property is present with value 4242. -/
def envPidPresent : WindowEnv :=
  ⟨fun _ => some 7, fun a => if a = 7 then some [4242] else none⟩

/-- A window on a display where the `_NET_WM_PID` atom does not exist. -/
def envPidNoAtom : WindowEnv :=
  ⟨fun _ => none, fun _ => none⟩

/-- A window where the atom exists but the property is absent. -/
def envPidNoProp : WindowEnv :=
  ⟨fun _ => some 7, fun _ => none⟩

/-- A concrete `KeyPressed` value as produced by `KeyPressed.init envTest 9 "a"`. -/
def kpTest : KeyPressed :=
  ⟨9, 38⟩

/-- A concrete wrapped block that raises after sleeping once. -/
def bodyTest : BodyResult :=
  BodyResult.raised [Action.sleep SleepKind.keyEventInterval]

/-- The trace `send_key envTest 9 "a" 1 0` produces, written out. -/
def traceA : List Action :=
  [Action.sendEvent 9 EventClass.keyPress ⟨2, 38, 0, 0, 9, 0, 0, 0, 0, 0, 0, 1⟩,
   Action.flush 9,
   Action.sleep SleepKind.keyEventInterval,
   Action.sendEvent 9 EventClass.keyRelease ⟨3, 38, 0, 0, 9, 0, 0, 0, 0, 0, 0, 1⟩,
   Action.flush 9,
   Action.sleep SleepKind.keyEventInterval]

/-!
Helper lemmas about the trace observations.
-/

theorem sentEvents_append (l1 l2 : List Action) :
    sentEvents (l1 ++ l2) = sentEvents l1 ++ sentEvents l2 := by
  induction l1 with
  | nil => rfl
  | cons a rest ih => cases a <;> simp [sentEvents, ih]

theorem sentEvents_flatten_replicate (n : Nat) (l : List Action) :
    sentEvents (List.replicate n l).flatten =
      (List.replicate n (sentEvents l)).flatten := by
  induction n with
  | zero => rfl
  | succ m ih => simp [List.replicate_succ, sentEvents_append, ih]

theorem sentEvents_click (window : Nat) (x y : Int) (code : Nat) :
    sentEvents (click window x y code).1 =
      [expectMotion window x y, expectButtonPress window x y code,
       expectButtonRelease window x y code] := rfl

theorem sentEvents_key_press (window keycode modifiers : Nat) :
    sentEvents (key_press window keycode modifiers) =
      [expectKeyPress window keycode modifiers] := rfl

theorem sentEvents_key_release (window keycode modifiers : Nat) :
    sentEvents (key_release window keycode modifiers) =
      [expectKeyRelease window keycode modifiers] := rfl

theorem get_key_code_ok (env : XEnv) (c : String)
    (h : env.string_to_keysym (pyConvert c) ≠ 0) :
    get_key_code env c = Except.ok (keycodeOf env c) := by
  simp [get_key_code, keycodeOf, h]

theorem get_key_code_err (env : XEnv) (c : String)
    (h : env.string_to_keysym (pyConvert c) = 0) :
    get_key_code env c =
      Except.error ("NoSymbol found for character: " ++ pyConvert c) := by
  simp [get_key_code, h]

theorem get_key_code_ok_inv (env : XEnv) (s : String) (c : Nat)
    (h : get_key_code env s = Except.ok c) : c = keycodeOf env s := by
  unfold get_key_code at h
  split at h
  · exact absurd h (by simp)
  · rw [keycodeOf]
    exact (Except.ok.injEq _ _ |>.mp h).symm

theorem listPrefixTest_self (l : List Char) : listPrefixTest l l = true := by
  induction l with
  | nil => rfl
  | cons a as ih => simp [listPrefixTest, ih]

theorem listInfixTest_append_self (p s : List Char) :
    listInfixTest s (p ++ s) = true := by
  induction p with
  | nil => cases s <;> simp [listInfixTest, listPrefixTest_self]
  | cons c cs ih => simp [listInfixTest, ih]

/-!
Claim theorems.
-/

/-- Claim C3: for every window, coordinates (x, y) and button code,
`click(window, x, y, code)` issues exactly three events in order — a
pointer move to (x, y), a button press with the supplied code, and a
button release with that same code — and returns the supplied code. -/
theorem C3_click (window : Nat) (x y : Int) (code : Nat) :
    (click window x y code).2 = code ∧
    sentEvents (click window x y code).1 =
      [expectMotion window x y, expectButtonPress window x y code,
       expectButtonRelease window x y code] :=
  ⟨rfl, rfl⟩

/-- Claim C6: every call to `send_event` constructs a single event record
whose modifier-state field equals the caller-supplied mask, whose
same-screen flag is 1, whose window-relative coordinates are the supplied
x and y, and whose root-relative coordinates are zeroed. -/
theorem C6_send_event_fields (window : Nat) (cls : EventClass) (ty : Nat)
    (keycode : Nat) (x y : Int) (modifiers : Nat) :
    ∃ ev : EventRecord,
      send_event window cls ty keycode x y modifiers =
        [Action.sendEvent window cls ev, Action.flush window] ∧
      ev.state = modifiers ∧ ev.same_screen = 1 ∧
      ev.event_x = x ∧ ev.event_y = y ∧ ev.root_x = 0 ∧ ev.root_y = 0 :=
  ⟨_, rfl, rfl, rfl, rfl, rfl, rfl, rfl⟩

/-- Claim C1, counterexample: `scroll_up(0, 0, 0, repeat=1)` does not
issue exactly one pointer-move event followed by one press/release cycle
with the scroll-up button code: every `click` it performs begins with its
own pointer move, so the trace holds two motion events, not one. -/
theorem C1_counterexample :
    sentEvents (scroll_up 0 0 0 1).1 ≠
      [expectMotion 0 0 0, expectButtonPress 0 0 0 MOUSE_SCROLL_UP,
       expectButtonRelease 0 0 0 MOUSE_SCROLL_UP] := by decide

/-- Claim C1, amended: for every window, coordinates (x, y) and repeat
count, `scroll_up` issues one pointer-move event followed by `repeat`
full click cycles — each consisting of its own pointer move, a press and
a release with the scroll-up button code — and returns `repeat`;
`scroll_down` behaves identically with the scroll-down button code. -/
theorem C1_scroll (window : Nat) (x y : Int) (rep : Nat) :
    (scroll_up window x y rep).2 = rep ∧
    sentEvents (scroll_up window x y rep).1 =
      expectMotion window x y ::
        (List.replicate rep [expectMotion window x y,
          expectButtonPress window x y MOUSE_SCROLL_UP,
          expectButtonRelease window x y MOUSE_SCROLL_UP]).flatten ∧
    (scroll_down window x y rep).2 = rep ∧
    sentEvents (scroll_down window x y rep).1 =
      expectMotion window x y ::
        (List.replicate rep [expectMotion window x y,
          expectButtonPress window x y MOUSE_SCROLL_DOWN,
          expectButtonRelease window x y MOUSE_SCROLL_DOWN]).flatten := by
  refine ⟨rfl, ?_, rfl, ?_⟩ <;>
    simp [scroll_up, scroll_down, sentEvents_append,
      sentEvents_flatten_replicate, sentEvents_click, sentEvents,
      expectMotion, expectButtonPress, expectButtonRelease,
      X_MotionNotify, X_NotifyNormal, X_CurrentTime, X_NONE,
      X_ButtonPress, X_ButtonRelease]

/-- Claim C2: for every window and repeat count, and any display mapping
that resolves `Shift_L` and `a`, `send_key(window, "shift+a", repeat)`
issues a press of the left shift keycode first, then `repeat` consecutive
press/release pairs of the keycode of `a`, then a release of the shift
keycode last — so the shift press and release bracket all primary-key
events and occur exactly once each. -/
theorem C2_send_key_shift_a (env : XEnv) (window : Nat) (rep : Nat)
    (hs : env.string_to_keysym "Shift_L" ≠ 0)
    (ha : env.string_to_keysym "a" ≠ 0) :
    ∃ tr, send_key env window "shift+a" rep 0 = Except.ok tr ∧
      sentEvents tr =
        expectKeyPress window (keycodeOf env "Shift_L") 0 ::
          ((List.replicate rep [expectKeyPress window (keycodeOf env "a") 0,
             expectKeyRelease window (keycodeOf env "a") 0]).flatten ++
           [expectKeyRelease window (keycodeOf env "Shift_L") 0]) := by
  have hs' : env.string_to_keysym (pyConvert "Shift_L") ≠ 0 := hs
  have ha' : env.string_to_keysym (pyConvert "a") ≠ 0 := ha
  have h1 : get_key_code env "Shift_L" = Except.ok (keycodeOf env "Shift_L") :=
    get_key_code_ok env "Shift_L" hs'
  have h2 : get_key_code env "a" = Except.ok (keycodeOf env "a") :=
    get_key_code_ok env "a" ha'
  have hstep : _parse_key_string env "shift+a" =
      (get_key_code env "Shift_L").bind fun c1 =>
        (get_key_code env "a").bind fun c2 => Except.ok ([c2], [c1]) := rfl
  have hparse : _parse_key_string env "shift+a" =
      Except.ok ([keycodeOf env "a"], [keycodeOf env "Shift_L"]) := by
    rw [hstep, h1, h2]; rfl
  refine ⟨_, by rw [send_key, hparse]; rfl, ?_⟩
  simp [sentEvents_append, sentEvents_flatten_replicate,
    sentEvents_key_press, sentEvents_key_release, sentEvents,
    expectKeyPress, expectKeyRelease, X_KeyPress, X_KeyRelease,
    X_CurrentTime, X_NONE]

/-- Claim C2, witness at the concrete mapping `envTest`, window 9 and
three repeats. -/
theorem C2_witness :
    envTest.string_to_keysym "Shift_L" ≠ 0 ∧
    envTest.string_to_keysym "a" ≠ 0 ∧
    (∃ tr, send_key envTest 9 "shift+a" 3 0 = Except.ok tr ∧
      sentEvents tr =
        expectKeyPress 9 (keycodeOf envTest "Shift_L") 0 ::
          ((List.replicate 3 [expectKeyPress 9 (keycodeOf envTest "a") 0,
             expectKeyRelease 9 (keycodeOf envTest "a") 0]).flatten ++
           [expectKeyRelease 9 (keycodeOf envTest "Shift_L") 0])) :=
  ⟨by decide, by decide,
   C2_send_key_shift_a envTest 9 3 (by decide) (by decide)⟩

/-- Claim C4: for every window and resolvable key name, the key-hold
scope runs its enter trace, then the wrapped block, then its exit trace
on every exit path — normal completion and exception alike — and the exit
trace carries exactly one key-release event for the resolved keycode
while the enter trace carries none; an exception from the block still
propagates (the scope does not swallow it). -/
theorem C4_keypressed_release (env : XEnv) (window : Nat) (key : String)
    (kp : KeyPressed) (body : BodyResult)
    (_h : KeyPressed.init env window key = Except.ok kp) :
    (withKeyPressed kp body).1 = kp.enter ++ bodyTrace body ++ kp.exit ∧
    countKeyReleases kp.window kp.code kp.exit = 1 ∧
    countKeyReleases kp.window kp.code kp.enter = 0 ∧
    ((withKeyPressed kp body).2 = true ↔ ∃ t, body = BodyResult.normal t) := by
  refine ⟨?_, ?_, ?_, ?_⟩
  · cases body <;> rfl
  · simp [KeyPressed.exit, key_release, send_event, countKeyReleases]
  · rfl
  · cases body <;> simp [withKeyPressed]

/-- Claim C4, witness: the scope built over `envTest` for key `a` on
window 9, wrapped around a block that raises. -/
theorem C4_witness :
    KeyPressed.init envTest 9 "a" = Except.ok kpTest ∧
    ((withKeyPressed kpTest bodyTest).1 =
        kpTest.enter ++ bodyTrace bodyTest ++ kpTest.exit ∧
      countKeyReleases kpTest.window kpTest.code kpTest.exit = 1 ∧
      countKeyReleases kpTest.window kpTest.code kpTest.enter = 0 ∧
      ((withKeyPressed kpTest bodyTest).2 = true ↔
        ∃ t, bodyTest = BodyResult.normal t)) :=
  ⟨rfl, C4_keypressed_release envTest 9 "a" kpTest bodyTest rfl⟩

/-- Claim C5, counterexample: resolution of the key name happens at
construction of the scope object, before the scope is entered —
constructing `KeyPressed` for an unresolvable name already raises during
`__init__`, with no entry having taken place. -/
theorem C5_counterexample :
    KeyPressed.init envNone 0 "a" =
      Except.error "NoSymbol found for character: a" := rfl

/-- Claim C5, amended: the key-hold scope resolves the key name once, at
construction (`__init__`), and stores the keycode; entering the scope
performs no further resolution and issues exactly the key-press event for
the stored keycode (construction itself issues no event). -/
theorem C5_keypressed_init (env : XEnv) (window : Nat) (key : String)
    (kp : KeyPressed)
    (h : KeyPressed.init env window key = Except.ok kp) :
    get_key_code env key = Except.ok kp.code ∧ kp.window = window ∧
    sentEvents kp.enter = [expectKeyPress window kp.code 0] := by
  unfold KeyPressed.init at h
  cases hg : get_key_code env key with
  | error e =>
    rw [hg] at h
    exact absurd h (by simp [Except.map])
  | ok c =>
    rw [hg] at h
    simp only [Except.map, Except.ok.injEq] at h
    subst h
    exact ⟨rfl, rfl, rfl⟩

/-- Claim C5, witness at `envTest`, window 9, key `a`. -/
theorem C5_witness :
    KeyPressed.init envTest 9 "a" = Except.ok kpTest ∧
    (get_key_code envTest "a" = Except.ok kpTest.code ∧ kpTest.window = 9 ∧
      sentEvents kpTest.enter = [expectKeyPress 9 kpTest.code 0]) :=
  ⟨rfl, C5_keypressed_init envTest 9 "a" kpTest rfl⟩

/-- The `_parse_key_string` loop, related to a filter/map description:
whatever the accumulators hold, a successful run extends the primaries by
the resolved non-modifier tokens in order and the modifiers by the
resolved `<Capitalized>_L` names of the modifier tokens in order. -/
theorem parseLoop_ok (env : XEnv) (parts : List String) :
    ∀ accP accM prims mods,
      parseLoop env parts accP accM = Except.ok (prims, mods) →
      prims = accP ++ ((parts.filter fun p => !(isModToken p)).map (keycodeOf env)) ∧
      mods = accM ++ ((parts.filter isModToken).map
        fun p => keycodeOf env (pyCapitalize p ++ "_L")) := by
  induction parts with
  | nil =>
    intro accP accM prims mods h
    simp only [parseLoop, Except.ok.injEq, Prod.mk.injEq] at h
    simp [h.1, h.2]
  | cons part rest ih =>
    intro accP accM prims mods h
    by_cases hm : isModToken part
    · rw [parseLoop, if_pos hm] at h
      cases hg : get_key_code env (pyCapitalize part ++ "_L") with
      | error e => rw [hg] at h; exact absurd h (by simp [Except.bind])
      | ok c =>
        rw [hg] at h
        simp only [Except.bind] at h
        have hc := get_key_code_ok_inv env (pyCapitalize part ++ "_L") c hg
        have := ih accP (accM ++ [c]) prims mods h
        subst hc
        simp [hm, this.1, this.2]
    · rw [parseLoop, if_neg hm] at h
      cases hg : get_key_code env part with
      | error e => rw [hg] at h; exact absurd h (by simp [Except.bind])
      | ok c =>
        rw [hg] at h
        simp only [Except.bind] at h
        have hc := get_key_code_ok_inv env part c hg
        have := ih (accP ++ [c]) accM prims mods h
        subst hc
        simp [hm, this.1, this.2]

/-- Claim C7: a key spec without `+`, or the literal `"+"`, parses to the
whole string as a single primary key with no modifiers; any other spec is
split on `+`, its tokens equal to `alt`, `control` or `shift` become the
modifier keycodes (resolved through the capitalised `_L` left-hand name)
in listed order, and every other token becomes a primary keycode in
listed order. -/
theorem C7_parse (env : XEnv) (key : String) (prims mods : List Nat)
    (h : _parse_key_string env key = Except.ok (prims, mods)) :
    if !(key.data.contains '+') || key == "+" then
      prims = [keycodeOf env key] ∧ mods = []
    else
      prims = ((pySplit key '+').filter fun p => !(isModToken p)).map (keycodeOf env) ∧
      mods = ((pySplit key '+').filter isModToken).map
        (fun p => keycodeOf env (pyCapitalize p ++ "_L")) := by
  by_cases hc : (!(key.data.contains '+') || key == "+") = true
  · rw [if_pos hc]
    rw [_parse_key_string, if_pos hc] at h
    cases hg : get_key_code env key with
    | error e => rw [hg] at h; exact absurd h (by simp [Except.map])
    | ok c =>
      rw [hg] at h
      simp only [Except.map, Except.ok.injEq, Prod.mk.injEq] at h
      have hck := get_key_code_ok_inv env key c hg
      exact ⟨by rw [← h.1, hck], h.2.symm⟩
  · rw [if_neg hc]
    rw [_parse_key_string, if_neg hc] at h
    have := parseLoop_ok env (pySplit key '+') [] [] prims mods h
    simpa using this

/-- Claim C7, witness: parsing `"shift+a"` over `envTest` yields primary
keycode 38 (`a`) and modifier keycode 50 (`Shift_L`). -/
theorem C7_witness :
    _parse_key_string envTest "shift+a" = Except.ok ([38], [50]) ∧
    (if !("shift+a".data.contains '+') || "shift+a" == "+" then
       ([38] : List Nat) = [keycodeOf envTest "shift+a"] ∧ ([50] : List Nat) = []
     else
       ([38] : List Nat) =
         ((pySplit "shift+a" '+').filter fun p => !(isModToken p)).map (keycodeOf envTest) ∧
       ([50] : List Nat) = ((pySplit "shift+a" '+').filter isModToken).map
         (fun p => keycodeOf envTest (pyCapitalize p ++ "_L"))) :=
  ⟨rfl, C7_parse envTest "shift+a" [38] [50] rfl⟩

/-- Claim C8, counterexample: for the requested name `Enter` on a display
with no mapping for `Return`, `get_key_code` raises, and the keysym
lookup it performs returns 0, yet the exception message does not contain
the requested name `Enter` — it contains the aliased name `Return`. -/
theorem C8_counterexample :
    envNone.string_to_keysym "Return" = 0 ∧
    get_key_code envNone "Enter" =
      Except.error "NoSymbol found for character: Return" ∧
    strContains "NoSymbol found for character: Return" "Enter" = false := by
  refine ⟨rfl, rfl, by decide⟩

/-- Claim C8, amended: `get_key_code(character)` raises an exception
whose message contains the normalized key name — the requested name after
the `Ctrl` to `Control` and `Enter` to `Return` aliases, hence the
requested name itself for all other inputs — exactly when the keysym
lookup of that normalized name returns 0; when it resolves, the keycode
of the resolved keysym is returned without raising. -/
theorem C8_get_key_code (env : XEnv) (character : String) :
    ((∃ msg, get_key_code env character = Except.error msg ∧
        strContains msg (pyConvert character) = true) ↔
      env.string_to_keysym (pyConvert character) = 0) ∧
    (env.string_to_keysym (pyConvert character) ≠ 0 →
      get_key_code env character =
        Except.ok (env.keysym_to_keycode
          (env.string_to_keysym (pyConvert character)))) := by
  constructor
  · constructor
    · rintro ⟨msg, hmsg, _⟩
      by_contra hne
      rw [get_key_code_ok env character hne] at hmsg
      exact absurd hmsg (by simp)
    · intro h0
      refine ⟨"NoSymbol found for character: " ++ pyConvert character,
        get_key_code_err env character h0, ?_⟩
      rw [strContains, String.data_append]
      exact listInfixTest_append_self _ _
  · intro hne
    rw [get_key_code_ok env character hne, keycodeOf]

/-- Claim C8, witness: the resolving branch at `envTest` with `a`, and
the raising branch at `envNone` with `b`. -/
theorem C8_witness :
    (envTest.string_to_keysym (pyConvert "a") ≠ 0 ∧
      get_key_code envTest "a" = Except.ok (envTest.keysym_to_keycode
        (envTest.string_to_keysym (pyConvert "a")))) ∧
    (envNone.string_to_keysym (pyConvert "b") = 0 ∧
      ∃ msg, get_key_code envNone "b" = Except.error msg ∧
        strContains msg (pyConvert "b") = true) :=
  ⟨⟨by decide, (C8_get_key_code envTest "a").2 (by decide)⟩,
   ⟨by decide, (C8_get_key_code envNone "b").1.mpr (by decide)⟩⟩

/-- Claim C9: when the `_NET_WM_PID` atom exists and the window carries
the property, `get_window_pid` returns the first element of the property
value; when the atom does not exist (the interned reply is atom 0, which
carries no property) or the property is absent, the call raises an
unchecked decode error instead of returning a value. -/
theorem C9_get_window_pid (env : WindowEnv) :
    (∀ a v rest, env.intern_atom "_NET_WM_PID" = some a →
       env.get_property a = some (v :: rest) →
       get_window_pid env = Except.ok v) ∧
    (env.intern_atom "_NET_WM_PID" = none → env.get_property 0 = none →
       ∃ e, get_window_pid env = Except.error e) ∧
    (∀ a, env.intern_atom "_NET_WM_PID" = some a →
       env.get_property a = none →
       ∃ e, get_window_pid env = Except.error e) := by
  refine ⟨?_, ?_, ?_⟩
  · intro a v rest h1 h2
    simp [get_window_pid, h1, h2]
  · intro h1 h2
    exact ⟨PyError.attributeError, by simp [get_window_pid, h1, h2]⟩
  · intro a h1 h2
    exact ⟨PyError.attributeError, by simp [get_window_pid, h1, h2]⟩

/-- Claim C9, witness: a window carrying pid 4242, a display lacking the
atom, and a window lacking the property. -/
theorem C9_witness :
    get_window_pid envPidPresent = Except.ok 4242 ∧
    (∃ e, get_window_pid envPidNoAtom = Except.error e) ∧
    (∃ e, get_window_pid envPidNoProp = Except.error e) :=
  ⟨(C9_get_window_pid envPidPresent).1 7 4242 [] rfl (by decide),
   (C9_get_window_pid envPidNoAtom).2.1 rfl rfl,
   (C9_get_window_pid envPidNoProp).2.2 7 rfl rfl⟩

/-- The `send_keys` loop equals an effectful map over the key specs, each
sent with `repeat=1` and `modifiers=0`, with the traces concatenated. -/
theorem send_keys_loop_eq (env : XEnv) (window : Nat) (keys : List String) :
    send_keys_loop env window keys =
      (mapExcept (fun key => send_key env window key 1 0) keys).map
        List.flatten := by
  induction keys with
  | nil => rfl
  | cons k rest ih =>
    rw [send_keys_loop, mapExcept, ih]
    cases send_key env window k 1 0 with
    | error e => rfl
    | ok t =>
      cases mapExcept (fun key => send_key env window key 1 0) rest with
      | error e => rfl
      | ok ts => simp [Except.bind, Except.map, List.flatten]

/-- Claim C10: `send_keys(window, keys)` invokes `send_key` once per
element of `keys` in order, each with `repeat=1` and `modifiers=0`; its
trace is the concatenation of the individual traces and it returns
`len(keys)`; for the empty sequence it sends nothing and returns 0. -/
theorem C10_send_keys (env : XEnv) (window : Nat) (keys : List String)
    (ts : List (List Action))
    (h : mapExcept (fun key => send_key env window key 1 0) keys =
      Except.ok ts) :
    send_keys env window keys = Except.ok (ts.flatten, keys.length) ∧
    send_keys env window [] = Except.ok ([], 0) := by
  constructor
  · rw [send_keys, send_keys_loop_eq, h]
    rfl
  · rfl

/-- Claim C10, witness: sending the single spec `a` over `envTest`
produces exactly the six-effect trace of one `send_key` call and returns
1. -/
theorem C10_witness :
    send_keys envTest 9 ["a"] = Except.ok ([traceA].flatten, 1) ∧
    send_keys envTest 9 [] = Except.ok ([], 0) :=
  C10_send_keys envTest 9 ["a"] [traceA] rfl

end Exul
